import Mathlib

/-!
Shallow embedding of `app/dashboard.py` from the greed-fear-dashboard
repository, together with proofs about its core logic: the classifier
adapter (`analyze_and_store`), the store read/seed path (`load_data`),
and the greed/fear aggregation (`compute_index`).

Numeric scores are modelled as rationals (the Python code uses floats,
but every operation involved is a sum, a division and a comparison, so
the algebraic content is faithfully captured over ℚ).  The SQLite table
is modelled as a list of rows in insertion order; a read of the table is
modelled as an `Except` value so that a read failure can be represented.
The external sentiment classifier is modelled as an `Except` result
handed to the caller: `Except.ok (rawLabel, confidence)` for a
successful classification, `Except.error` when the pipeline raises.
-/

namespace Dashboard

/-- One row of the `sentiments` table (id and timestamp are assigned by
the store and play no role in the claims; rows are kept in insertion
order, which is the timestamp order). -/
structure Obs where
  text : String
  sentiment : String
  score : ℚ
  deriving Repr, DecidableEq

/-- `charsStartWith pat s = true` iff `pat` is a leading segment of `s`. -/
def charsStartWith : List Char → List Char → Bool
  | [], _ => true
  | _ :: _, [] => false
  | p :: ps, c :: cs => p == c && charsStartWith ps cs

/-- `charsContain s pat = true` iff `pat` occurs contiguously in `s`
(the semantics of Python's `pat in s` on strings). -/
def charsContain (s pat : List Char) : Bool :=
  match s with
  | [] => pat.isEmpty
  | c :: rest => charsStartWith pat (c :: rest) || charsContain rest pat

/-- Python's `pat in s` substring test. -/
def containsSub (s pat : String) : Bool := charsContain s.data pat.data

/-- Python's `str.lower()` (ASCII case folding suffices for the labels
involved). -/
def strLower (s : String) : String := ⟨s.data.map Char.toLower⟩

/-- The whitespace characters stripped by Python's `str.strip()`. -/
def pyWhitespace (c : Char) : Bool :=
  c == ' ' || c == '\t' || c == '\n' || c == '\r' || c == '\x0b' || c == '\x0c'

/-- Python's `str.strip()`: remove leading and trailing whitespace. -/
def pyStrip (s : String) : String :=
  ⟨((s.data.dropWhile pyWhitespace).reverse.dropWhile pyWhitespace).reverse⟩

/-- Line 49 of `dashboard.py`:
`score = result["score"] if "positive" in label else
-result["score"] if "negative" in label else 0`,
where `label` is the already lower-cased raw label. -/
def scoreOf (label : String) (conf : ℚ) : ℚ :=
  if containsSub label "positive" then conf
  else if containsSub label "negative" then -conf
  else 0

/-- The classifier adapter of the spec (`classify_and_score`): lines
48–49 of `dashboard.py`, mapping the external model's raw output
`(raw_label, confidence)` to the stored `(label, signed score)`. -/
def classify_and_score (rawLabel : String) (conf : ℚ) : String × ℚ :=
  let label := strLower rawLabel
  (label, scoreOf label conf)

/-- An error signalled by the external classifier pipeline
(`ClassifierUnavailable` in the spec's taxonomy). -/
def ClassifierError : Type := Unit
  deriving DecidableEq

/-- An error raised when reading the `sentiments` table
(`pd.io.sql.DatabaseError` in the code, `StoreReadFailure` in the spec). -/
def DBError : Type := Unit
  deriving DecidableEq

/-- `analyze_and_store` (lines 46–52): run the classifier on `text`; if
it raises, the exception propagates and nothing is inserted; otherwise
lower-case the label, derive the signed score, and insert one row.  The
classifier call's outcome is passed in as `res`; the function returns
the new table contents on success. -/
def analyze_and_store (res : Except ClassifierError (String × ℚ))
    (text : String) (store : List Obs) : Except ClassifierError (List Obs) :=
  match res with
  | Except.error e => Except.error e
  | Except.ok (rawLabel, conf) =>
      let r := classify_and_score rawLabel conf
      Except.ok (store ++ [⟨text, r.1, r.2⟩])

/-- The table contents visible after a form submission: on classifier
error the exception propagates out of `analyze_and_store` before the
INSERT runs, so the table is left as it was. -/
def submit_flow (res : Except ClassifierError (String × ℚ))
    (text : String) (store : List Obs) : List Obs :=
  match analyze_and_store res text store with
  | Except.ok s2 => s2
  | Except.error _ => store

/-- The guarded submit handler (lines 63–64):
`if submitted and user_text.strip(): analyze_and_store(user_text)`.
When the guard fails no classifier call and no insert happen. -/
def sentiment_form (submitted : Bool) (userText : String)
    (res : Except ClassifierError (String × ℚ)) (store : List Obs) :
    Except ClassifierError (List Obs) :=
  if submitted && !(pyStrip userText).data.isEmpty then
    analyze_and_store res userText store
  else
    Except.ok store

/-- The three fixed seed rows of lines 34–38. -/
def sample_data : List Obs :=
  [⟨"Market is booming!", "positive", 9/10⟩,
   ⟨"Crypto crash incoming", "negative", -(8/10)⟩,
   ⟨"I\x27m neutral about stocks today", "neutral", 1/10⟩]

/-- The read of lines 27–30: `pd.read_sql(...)` with the
`DatabaseError` handler substituting an empty frame.  `r` is the raw
outcome of the read. -/
def load_all (r : Except DBError (List Obs)) : List Obs :=
  match r with
  | Except.ok rows => rows
  | Except.error _ => []

/-- `load_data` (lines 26–41): read the table (`r` is the outcome of
that read of `store`); if the result is empty, append the three sample
rows and re-read.  Returns `(data returned, table contents after)`. -/
def load_data (r : Except DBError (List Obs)) (store : List Obs) :
    List Obs × List Obs :=
  let data := load_all r
  if data.isEmpty then
    let store2 := store ++ sample_data
    (store2, store2)
  else
    (data, store)

/-- Greed component (line 71): sum of the strictly positive scores. -/
def greed_score (l : List Obs) : ℚ :=
  ((l.filter fun o => decide (0 < o.score)).map Obs.score).sum

/-- Fear component (line 72): absolute value of the sum of the strictly
negative scores. -/
def fear_score (l : List Obs) : ℚ :=
  |((l.filter fun o => decide (o.score < 0)).map Obs.score).sum|

/-- The aggregation of lines 71–76 packaged as the spec's
`compute_index`: returns `(greed_percent, fear_percent)`. -/
def compute_index (l : List Obs) : ℚ × ℚ :=
  let total := greed_score l + fear_score l
  let gp := if total ≠ 0 then greed_score l / total * 100 else 50
  (gp, 100 - gp)

/-- Aggregation written directly from the spec's §4.3 wording, to be
compared with `compute_index` (which is translated from the code). -/
def compute_index_spec (l : List Obs) : ℚ × ℚ :=
  let greed := ((l.filter fun o => decide (0 < o.score)).map Obs.score).sum
  let fear := |((l.filter fun o => decide (o.score < 0)).map Obs.score).sum|
  let total := greed + fear
  if total = 0 then (50, 50)
  else (greed / total * 100, 100 - greed / total * 100)

/-- The single Observation appended by a successful run of
`analyze_and_store`. -/
def storedObs (rawLabel : String) (conf : ℚ) (text : String) : Obs :=
  ⟨text, (classify_and_score rawLabel conf).1, (classify_and_score rawLabel conf).2⟩

/-- The third seed row, whose label is "neutral" but whose score is
0.1. -/
def neutralSeed : Obs := ⟨"I\x27m neutral about stocks today", "neutral", 1/10⟩

/-- Claim C1: for every classifier result `(raw_label, confidence)` with
confidence in `[0,1]`, the adapter lower-cases the raw label and returns
score `= +confidence` when the lower-cased label contains "positive",
else `= -confidence` when it contains "negative", else `= 0`. -/
theorem classify_and_score_mapping (rawLabel : String) (conf : ℚ)
    (hc0 : 0 ≤ conf) (hc1 : conf ≤ 1) :
    (classify_and_score rawLabel conf).1 = strLower rawLabel ∧
    (containsSub (strLower rawLabel) "positive" = true →
      (classify_and_score rawLabel conf).2 = conf) ∧
    (containsSub (strLower rawLabel) "positive" = false →
      containsSub (strLower rawLabel) "negative" = true →
      (classify_and_score rawLabel conf).2 = -conf) ∧
    (containsSub (strLower rawLabel) "positive" = false →
      containsSub (strLower rawLabel) "negative" = false →
      (classify_and_score rawLabel conf).2 = 0) := by
  refine ⟨rfl, ?_, ?_, ?_⟩
  · intro hp
    simp [classify_and_score, scoreOf, hp]
  · intro hp hn
    simp [classify_and_score, scoreOf, hp, hn]
  · intro hp hn
    simp [classify_and_score, scoreOf, hp, hn]

/-- Witness for C1 at the concrete input `("POSITIVE", 1/2)`. -/
theorem classify_and_score_mapping_witness :
    (0:ℚ) ≤ 1/2 ∧ (1:ℚ)/2 ≤ 1 ∧
    (classify_and_score "POSITIVE" (1/2)).2 = 1/2 := by
  refine ⟨by norm_num, by norm_num, ?_⟩
  exact (classify_and_score_mapping "POSITIVE" (1/2) (by norm_num)
    (by norm_num)).2.1 (by decide)

/-- Claim C2: `compute_index` agrees with the spec formula: greed is the
sum of the strictly positive scores, fear the absolute value of the sum
of the strictly negative scores; when `greed + fear = 0` the result is
exactly `(50, 50)`, otherwise `(greed / (greed + fear) * 100, 100 -
greed / (greed + fear) * 100)`. -/
theorem compute_index_correct (l : List Obs) :
    compute_index l = compute_index_spec l ∧
    (greed_score l + fear_score l = 0 → compute_index l = (50, 50)) ∧
    (greed_score l + fear_score l ≠ 0 →
      compute_index l =
        (greed_score l / (greed_score l + fear_score l) * 100,
         100 - greed_score l / (greed_score l + fear_score l) * 100)) := by
  by_cases h : greed_score l + fear_score l = 0
  · refine ⟨?_, fun _ => ?_, fun hne => absurd h hne⟩
    · simp only [compute_index, compute_index_spec, greed_score, fear_score] at h ⊢
      rw [if_neg (by simpa using h), if_pos h]
      norm_num
    · simp only [compute_index]
      rw [if_neg (by simpa using h)]
      norm_num
  · refine ⟨?_, fun heq => absurd heq h, fun _ => ?_⟩
    · simp only [compute_index, compute_index_spec, greed_score, fear_score] at h ⊢
      rw [if_pos (by simpa using h), if_neg h]
    · simp only [compute_index]
      rw [if_pos (by simpa using h)]

/-- Witness for C2: the empty list hits the `total = 0` branch and the
three seed rows (greed 1, fear 4/5, total 9/5) hit the division branch,
yielding greed_percent 500/9 ≈ 55.56. -/
theorem compute_index_correct_witness :
    (greed_score [] + fear_score [] = 0 ∧ compute_index [] = (50, 50)) ∧
    (greed_score sample_data + fear_score sample_data ≠ 0 ∧
      compute_index sample_data = (500/9, 100 - 500/9)) := by
  have hz : greed_score [] + fear_score [] = 0 := by
    simp [greed_score, fear_score]
  have hg : greed_score sample_data = 1 := by
    simp [greed_score, sample_data, List.filter]
    norm_num
  have hf : fear_score sample_data = 4/5 := by
    simp [fear_score, sample_data, List.filter]
    norm_num
  have hne : greed_score sample_data + fear_score sample_data ≠ 0 := by
    rw [hg, hf]; norm_num
  refine ⟨⟨hz, (compute_index_correct []).2.1 hz⟩, hne, ?_⟩
  rw [(compute_index_correct sample_data).2.2 hne, hg, hf]
  norm_num

/-- Claim C3: for every observation list (empty, all-neutral or mixed),
the two percentages returned by `compute_index` sum to 100. -/
theorem greed_fear_sum_100 (l : List Obs) :
    (compute_index l).1 + (compute_index l).2 = 100 := by
  simp only [compute_index]
  ring

/-- Claim C5: on a read failure `load_all` returns the empty result
instead of propagating the error, and the caller (`load_data`) observes
exactly what it observes on a genuinely empty store. -/
theorem load_all_read_failure (e : DBError) (store : List Obs) :
    load_all (Except.error e) = [] ∧
    load_all (Except.error e) = load_all (Except.ok ([] : List Obs)) ∧
    load_data (Except.error e) store =
      load_data (Except.ok ([] : List Obs)) store :=
  ⟨rfl, rfl, rfl⟩

/-- Claim C6: when the classifier errors, `analyze_and_store` propagates
the failure, no insert happens, and the table's row count is
unchanged. -/
theorem classifier_error_no_insert (e : ClassifierError) (text : String)
    (store : List Obs) :
    analyze_and_store (Except.error e) text store = Except.error e ∧
    submit_flow (Except.error e) text store = store ∧
    (submit_flow (Except.error e) text store).length = store.length :=
  ⟨rfl, rfl, rfl⟩

/-- Claim C10: a submission whose text strips to the empty string makes
no classifier call (the result is the same for every classifier outcome
`res`) and inserts nothing. -/
theorem blank_input_no_insert (submitted : Bool) (userText : String)
    (res : Except ClassifierError (String × ℚ)) (store : List Obs)
    (h : (pyStrip userText).data = []) :
    sentiment_form submitted userText res store = Except.ok store := by
  simp [sentiment_form, h]

/-- Witness for C10 at a whitespace-only submission. -/
theorem blank_input_no_insert_witness :
    (pyStrip "  \t ").data = [] ∧
    sentiment_form true "  \t " (Except.ok ("POSITIVE", 1))
      [] = Except.ok [] := by
  refine ⟨by decide, ?_⟩
  exact blank_input_no_insert true "  \t " (Except.ok ("POSITIVE", 1)) []
    (by decide)

/-- Claim C4: when the initial read yields zero rows, seeding inserts
exactly the three fixed example observations; when at least one row
already exists, seeding inserts nothing. -/
theorem seed_if_empty_behavior (store : List Obs) (h : store ≠ []) :
    (load_data (Except.ok ([] : List Obs)) []).2 = sample_data ∧
    sample_data =
      [⟨"Market is booming!", "positive", 9/10⟩,
       ⟨"Crypto crash incoming", "negative", -(8/10)⟩,
       ⟨"I\x27m neutral about stocks today", "neutral", 1/10⟩] ∧
    sample_data.length = 3 ∧
    (load_data (Except.ok store) store).2 = store := by
  refine ⟨rfl, rfl, rfl, ?_⟩
  match store with
  | [] => exact absurd rfl h
  | o :: rest => simp [load_data, load_all, List.isEmpty]

/-- Witness for C4 at a concrete one-row store. -/
theorem seed_if_empty_behavior_witness :
    ([(⟨"up", "positive", 1⟩ : Obs)] ≠ []) ∧
    (load_data (Except.ok [(⟨"up", "positive", 1⟩ : Obs)])
      [⟨"up", "positive", 1⟩]).2 = [⟨"up", "positive", 1⟩] := by
  refine ⟨by simp, ?_⟩
  exact (seed_if_empty_behavior [⟨"up", "positive", 1⟩] (by simp)).2.2.2

/-- Claim C9: `compute_index` is invariant under permutation of the
observation list. -/
theorem compute_index_perm_invariant (l1 l2 : List Obs) (h : l1.Perm l2) :
    compute_index l1 = compute_index l2 := by
  have hg : greed_score l1 = greed_score l2 :=
    ((h.filter _).map _).sum_eq
  have hf : fear_score l1 = fear_score l2 := by
    unfold fear_score
    rw [((h.filter _).map _).sum_eq]
  simp only [compute_index, hg, hf]

/-- Witness for C9: the seed rows against their reversal. -/
theorem compute_index_perm_invariant_witness :
    sample_data.Perm sample_data.reverse ∧
    compute_index sample_data = compute_index sample_data.reverse :=
  ⟨(List.reverse_perm sample_data).symm,
   compute_index_perm_invariant sample_data sample_data.reverse
     ((List.reverse_perm sample_data).symm)⟩

/-- Counterexample to claim C7: the seeded row
("I'm neutral about stocks today", "neutral", 0.1) is stored by the
system (it is in the table after seeding an empty store), its sentiment
is "neutral", yet its score is 0.1, not 0 — refuting
`score == 0` iff the sentiment is "neutral", and refuting
`|score| = confidence` being tied to sign agreement. -/
theorem score_sentiment_invariant_counterexample :
    neutralSeed ∈ (load_data (Except.ok ([] : List Obs)) []).2 ∧
    neutralSeed.sentiment = "neutral" ∧ ¬ neutralSeed.score = 0 := by
  refine ⟨?_, rfl, ?_⟩
  · show neutralSeed ∈ sample_data
    simp [sample_data, neutralSeed]
  · norm_num [neutralSeed]

/-- Claim C7 as amended: for every observation inserted by
`analyze_and_store` from a classifier result with confidence `c > 0`:
its score is positive iff the lower-cased label contains "positive",
negative iff the label contains "negative" and not "positive", zero iff
it contains neither, and when the label contains "positive" or
"negative" the score's absolute value equals `c`.  (The seeded
"neutral" row with score 0.1 violates the original system-wide
invariant.) -/
theorem score_sentiment_invariant_amended (rawLabel : String) (conf : ℚ)
    (h0 : 0 < conf) (text : String) (store : List Obs) :
    analyze_and_store (Except.ok (rawLabel, conf)) text store =
      Except.ok (store ++ [storedObs rawLabel conf text]) ∧
    (0 < (storedObs rawLabel conf text).score ↔
      containsSub (strLower rawLabel) "positive" = true) ∧
    ((storedObs rawLabel conf text).score < 0 ↔
      (containsSub (strLower rawLabel) "negative" = true ∧
       containsSub (strLower rawLabel) "positive" = false)) ∧
    ((storedObs rawLabel conf text).score = 0 ↔
      (containsSub (strLower rawLabel) "positive" = false ∧
       containsSub (strLower rawLabel) "negative" = false)) ∧
    ((containsSub (strLower rawLabel) "positive" = true ∨
      containsSub (strLower rawLabel) "negative" = true) →
      |(storedObs rawLabel conf text).score| = conf) := by
  refine ⟨rfl, ?_⟩
  have hne : conf ≠ 0 := ne_of_gt h0
  by_cases hp : containsSub (strLower rawLabel) "positive" = true
  · simp only [storedObs, classify_and_score, scoreOf, hp, if_true]
    constructor
    · simp [h0, hp]
    constructor
    · simp [hp, not_lt_of_gt h0]
    constructor
    · simp [hp, hne]
    · intro _
      exact abs_of_pos h0
  · rw [Bool.not_eq_true] at hp
    by_cases hn : containsSub (strLower rawLabel) "negative" = true
    · simp only [storedObs, classify_and_score, scoreOf, hp, hn,
        Bool.false_eq_true, if_false, if_true]
      constructor
      · simp [hp, not_lt_of_gt (neg_neg_of_pos h0)]
      constructor
      · simp [hn, hp, neg_neg_of_pos h0]
      constructor
      · simp [hp, neg_eq_zero, hne]
      · intro _
        rw [abs_neg]
        exact abs_of_pos h0
    · rw [Bool.not_eq_true] at hn
      simp only [storedObs, classify_and_score, scoreOf, hp, hn,
        Bool.false_eq_true, if_false]
      constructor
      · simp [hp]
      constructor
      · simp [hp, hn]
      constructor
      · simp [hp, hn]
      · intro hor
        rcases hor with hx | hx <;> simp [hp, hn] at hx

/-- Witness for amended C7 at `("NEGATIVE", 1)`: the stored score is
strictly negative. -/
theorem score_sentiment_invariant_amended_witness :
    (0:ℚ) < 1 ∧ (storedObs "NEGATIVE" 1 "t").score < 0 := by
  refine ⟨zero_lt_one, ?_⟩
  exact (score_sentiment_invariant_amended "NEGATIVE" 1 zero_lt_one "t"
    []).2.2.1.mpr ⟨by decide, by decide⟩

/-- Counterexample to claim C8: a classifier label "MIXED" (the raw
label is a free-form string, not restricted to POSITIVE/NEGATIVE) is
stored verbatim after lower-casing, producing a row whose sentiment
"mixed" is none of "positive", "negative", "neutral". -/
theorem sentiment_three_labels_counterexample :
    analyze_and_store (Except.ok ("MIXED", 1)) "hello" [] =
      Except.ok [⟨"hello", "mixed", 0⟩] ∧
    ¬ ("mixed" = "positive" ∨ "mixed" = "negative" ∨
       "mixed" = "neutral") := by
  exact ⟨rfl, by decide⟩

/-- Claim C8 as amended: the sentiment of every row inserted by
`analyze_and_store` is exactly the lower-cased classifier label, so it
is one of "positive"/"negative"/"neutral" precisely when the
classifier's label lower-cases to one of those; the three seed rows all
carry one of the three labels. -/
theorem sentiment_three_labels_amended (rawLabel : String) (conf : ℚ)
    (text : String) (store : List Obs) :
    analyze_and_store (Except.ok (rawLabel, conf)) text store =
      Except.ok (store ++ [storedObs rawLabel conf text]) ∧
    (storedObs rawLabel conf text).sentiment = strLower rawLabel ∧
    (((storedObs rawLabel conf text).sentiment = "positive" ∨
      (storedObs rawLabel conf text).sentiment = "negative" ∨
      (storedObs rawLabel conf text).sentiment = "neutral") ↔
     (strLower rawLabel = "positive" ∨ strLower rawLabel = "negative" ∨
      strLower rawLabel = "neutral")) ∧
    (∀ o ∈ sample_data,
      o.sentiment = "positive" ∨ o.sentiment = "negative" ∨
      o.sentiment = "neutral") := by
  refine ⟨rfl, rfl, Iff.rfl, ?_⟩
  intro o ho
  simp only [sample_data, List.mem_cons, List.not_mem_nil, or_false] at ho
  rcases ho with h1 | h1 | h1 <;> subst h1 <;> simp

end Dashboard
